/-
Verification of the CV scoring pipeline of the ai-cv-screener repository.

The Python sources are shallowly embedded: strings are Lean `String`s
(processed through their `List Char` data so that everything computes),
numbers are rationals, raised exceptions are `Except.error`, and the two
external collaborators (the LLM call and the standard-library JSON decoder)
are explicit function parameters.  Every definition mirrors one function of
the repository; the theorems at the end settle the frozen claims.
-/
import Mathlib

namespace CVScreener

/-! ### Character-level string utilities

Python string primitives (`str.lower`, `str.upper`, `str.strip`,
`str.split`, the `in` substring test, `str.replace`) modelled structurally
over `List Char` so that they reduce in the kernel.  ASCII case mapping and
the ASCII whitespace/alpha classes stand in for Python's Unicode ones; all
inputs appearing in the claims are ASCII. -/

def lowerChars (l : List Char) : List Char := l.map Char.toLower

def upperChars (l : List Char) : List Char := l.map Char.toUpper

/-- Python `str.strip`: drop whitespace from both ends. -/
def trimChars (l : List Char) : List Char :=
  ((l.dropWhile Char.isWhitespace).reverse.dropWhile Char.isWhitespace).reverse

/-- Split at every character satisfying `p`, keeping empty pieces. -/
def splitWhenChar (p : Char → Bool) : List Char → List (List Char)
  | [] => [[]]
  | c :: cs =>
    let rest := splitWhenChar p cs
    if p c then [] :: rest
    else match rest with
      | [] => [[c]]
      | r :: rs => (c :: r) :: rs

/-- Python `s.split(sep)` for a single separator character: keeps empty pieces. -/
def splitOnChar (sep : Char) (l : List Char) : List (List Char) :=
  splitWhenChar (fun c => c = sep) l

/-- Python `str.split()` with no argument: whitespace-separated words, empties dropped. -/
def wordsOf (l : List Char) : List (List Char) :=
  (splitWhenChar Char.isWhitespace l).filter (fun w => w ≠ [])

/-- Substring occurrence, Python `needle in hay`. -/
def containsSubChars (needle : List Char) : List Char → Bool
  | [] => needle.isEmpty
  | c :: cs => needle.isPrefixOf (c :: cs) || containsSubChars needle cs

def pyContains (needle hay : String) : Bool :=
  containsSubChars needle.data hay.data

/-- Python `w.replace(old, '')` for a single character `old`: remove every occurrence. -/
def removeChar (old : Char) (l : List Char) : List Char :=
  l.filter (fun c => c ≠ old)

/-! ### src/constants/constants.py -/

/-- `WEIGHTS` from `constants.py`: the fixed scoring weights. -/
structure Weights where
  experience : ℚ
  impact : ℚ
  skills : ℚ
  education : ℚ
  certs_extras : ℚ

def WEIGHTS : Weights :=
  { experience := 30 / 100
    impact := 20 / 100
    skills := 20 / 100
    education := 20 / 100
    certs_extras := 10 / 100 }

def MAX_RETRIES : ℕ := 3
def INITIAL_RETRY_DELAY : ℕ := 2
def MAX_RETRY_DELAY : ℕ := 30

/-- `SCORING_PROMPT` up to the `{job_description}` placeholder. -/
def SCORING_PROMPT_pre : String :=
  "Act as an expert HR AI specialized in CV analysis.\n\nJob Description:\n"

/-- `SCORING_PROMPT` between `{job_description}` and the first `{candidate_number}`. -/
def SCORING_PROMPT_mid1 : String := "\n\nCANDIDATE #"

/-- `SCORING_PROMPT` between the first `{candidate_number}` and `{cv_content}`. -/
def SCORING_PROMPT_mid2 : String := " CV:\n"

/-- `SCORING_PROMPT` between `{cv_content}` and the second `{candidate_number}`. -/
def SCORING_PROMPT_mid3 : String :=
  "\n\nAnalyze the CV against the Job Description using the following logic:\n\n1. **Filter Requirements**: Focus ONLY on professional qualifications and competencies. IGNORE availability, location, salary, and notice period.\n\n2. **Evaluation Logic**:\n   - **Trajectory**: Assess growth via title changes (Junior -> Senior) or Role Expansion (increased scope, budget, mentorship) if the title is static >2 years.\n   - **Impact**: Prioritize \"Achievements\" (quantifiable metrics, %, $) over passive \"Responsibilities.\"\n   - **Validation**: Verify listed skills exist within the \"Work History\" context.\n\n3. **Scoring Instructions**:\n   - Score each category on a **precise 0-100 scale**.\n   - **Use specific integers** (e.g., 26, 51, 87) based on exact merit. **DO NOT** default to round numbers (20, 50, 90).\n   - **Experience**: Relevance, trajectory, and tenure. Deduct for unjustified gaps >6mo or excessive job hopping.\n   - **Impact**: Quantifiable results vs. generic duties (0 if no metrics).\n   - **Skills**: Hard/soft skills validated by context.\n   - **Education**: Degree relevance (allow industry equivalents).\n   - **Extras**: Certs, awards, languages.\n\n4. **Output**:\n   - Return ONLY the JSON below.\n   - Do not mention formatting/design.\n   - Use \x27Candidate #"

/-- `SCORING_PROMPT` between the second and third `{candidate_number}` (the `{{`/`}}`
escapes of the Python f-string template become literal braces). -/
def SCORING_PROMPT_mid4 : String :=
  "\x27 in text, not the name.\n\n\x7b\n    \"experience_score\": <0-100>,\n    \"experience_reason\": \"<Analysis of relevance, trajectory, and tenure>\",\n    \"impact_score\": <0-100>,\n    \"impact_reason\": \"<Analysis of quantifiable achievements vs duties>\",\n    \"skills_score\": <0-100>,\n    \"skills_reason\": \"<Analysis of context-validated skills>\",\n    \"education_score\": <0-100>,\n    \"education_reason\": \"<Analysis of degree relevance>\",\n    \"certs_extras_score\": <0-100>,\n    \"certs_extras_reason\": \"<Analysis of certifications/extras>\",\n    \"red_flags\": [\n        \"List gaps >6mo, frequent hops, or skill anomalies. Empty if none.\"\n    ],\n    \"strengths\": [\n        \"Point 1\",\n        \"Point 2\",\n        \"Point 3\"\n    ],\n    \"weaknesses\": [\n        \"Point 1\",\n        \"Point 2\"\n    ],\n    \"summary\": \"<2-3 sentence assessment for Candidate #"

/-- Tail of `SCORING_PROMPT` after the third `{candidate_number}`. -/
def SCORING_PROMPT_end : String := ">\"\n\x7d"

/-- The scoring prompt with its three placeholders substituted, as
`PromptTemplate`/`chain.invoke` produces it in `CVAnalyzer.score_cv`.  Its only
inputs are the job description, the raw CV text and the candidate number. -/
def SCORING_PROMPT_filled (job_description cv_content : String)
    (candidate_number : ℕ) : String :=
  SCORING_PROMPT_pre ++ job_description ++
    SCORING_PROMPT_mid1 ++ toString candidate_number ++ SCORING_PROMPT_mid2 ++
    cv_content ++
    SCORING_PROMPT_mid3 ++ toString candidate_number ++
    SCORING_PROMPT_mid4 ++ toString candidate_number ++ SCORING_PROMPT_end

/-! ### src/utils/helpers.py — retry_with_exponential_backoff -/

/-- The rate-limit test of `retry_with_exponential_backoff`:
`error_msg = str(e).lower()` followed by the three substring checks. -/
def isRateLimitError (e : String) : Bool :=
  let error_msg := String.mk (lowerChars e.data)
  pyContains "rate limit" error_msg || pyContains "quota" error_msg ||
    pyContains "429" error_msg

instance {ε α : Type} [DecidableEq ε] [DecidableEq α] : DecidableEq (Except ε α) :=
  fun x y =>
    match x, y with
    | .ok a, .ok b =>
      if h : a = b then .isTrue (congrArg Except.ok h)
      else .isFalse (fun hc => h (Except.ok.inj hc))
    | .ok _, .error _ => .isFalse (fun hc => Except.noConfusion hc)
    | .error _, .ok _ => .isFalse (fun hc => Except.noConfusion hc)
    | .error e, .error e2 =>
      if h : e = e2 then .isTrue (congrArg Except.error h)
      else .isFalse (fun hc => h (Except.error.inj hc))

/-- Observable behaviour of one run of the decorated function: the returned
value or raised exception, how many times the wrapped function was called,
and the sequence of `time.sleep` delays performed. -/
structure RetryTrace (α : Type) where
  result : Except String α
  attempts : ℕ
  delays : List ℕ
deriving DecidableEq

/-- The `for attempt in range(max_retries)` loop of the decorator.  `fuel`
counts the remaining loop iterations; the wrapped call on attempt `i` is
`f i`.  The fuel-exhausted branch corresponds to the final
`raise last_exception` after the loop, reachable only when `max_retries = 0`. -/
def retryGo {α : Type} (f : ℕ → Except String α) (max_retries max_delay : ℕ) :
    ℕ → ℕ → ℕ → List ℕ → RetryTrace α
  | 0, attempt, _, sleeps => ⟨.error "last_exception", attempt, sleeps⟩
  | fuel + 1, attempt, delay, sleeps =>
    match f attempt with
    | .ok a => ⟨.ok a, attempt + 1, sleeps⟩
    | .error e =>
      if isRateLimitError e then
        if attempt < max_retries - 1 then
          retryGo f max_retries max_delay fuel (attempt + 1)
            (min (delay * 2) max_delay) (sleeps ++ [delay])
        else
          ⟨.error ("Max retries (" ++ toString max_retries ++
            ") reached. Rate limit error: " ++ e), attempt + 1, sleeps⟩
      else ⟨.error e, attempt + 1, sleeps⟩

/-- `retry_with_exponential_backoff(max_retries, initial_delay, max_delay)`
applied to a call whose behaviour on attempt `i` is `f i`. -/
def retry_with_exponential_backoff {α : Type}
    (max_retries initial_delay max_delay : ℕ)
    (f : ℕ → Except String α) : RetryTrace α :=
  retryGo f max_retries max_delay max_retries 0 initial_delay []

/-! ### src/core/cv_analyzer.py — CVAnalyzer -/

/-- Python `round(x, 1)` modelled on exact rationals (round to tenths). -/
def round1 (q : ℚ) : ℚ := (⌊10 * q + 1 / 2⌋ : ℚ) / 10

/-- The clamp `max(0, min(100, x))` applied to each raw sub-score. -/
def clamp0100 (q : ℚ) : ℚ := max 0 (min 100 q)

/-- The five numeric sub-score entries read from the LLM JSON object via
`llm_scores.get(key, 50)`; `none` models a missing key. -/
structure LLMScores where
  experience_score : Option ℚ
  impact_score : Option ℚ
  skills_score : Option ℚ
  education_score : Option ℚ
  certs_extras_score : Option ℚ
deriving DecidableEq

/-- The dictionary returned by `CVAnalyzer.calculate_weighted_score`. -/
structure WeightedScores where
  experience_score : ℚ
  impact_score : ℚ
  skills_score : ℚ
  education_score : ℚ
  certs_extras_score : ℚ
  score : ℚ
  recommendation : String
  experience_score_raw : ℚ
  impact_score_raw : ℚ
  skills_score_raw : ℚ
  education_score_raw : ℚ
  certs_extras_score_raw : ℚ
deriving DecidableEq

/-- The recommendation ladder of `calculate_weighted_score`. -/
def recommendationFor (total_score : ℚ) : String :=
  if 80 ≤ total_score then "STRONGLY RECOMMEND"
  else if 60 ≤ total_score then "RECOMMEND"
  else if 40 ≤ total_score then "CONSIDER"
  else "REJECT"

/-- `CVAnalyzer.calculate_weighted_score`, happy path: default missing keys
to 50, clamp to [0,100], weight, sum, round to one decimal. -/
def calculate_weighted_score (llm_scores : LLMScores) : WeightedScores :=
  let experience_raw := clamp0100 (llm_scores.experience_score.getD 50)
  let impact_raw := clamp0100 (llm_scores.impact_score.getD 50)
  let skills_raw := clamp0100 (llm_scores.skills_score.getD 50)
  let education_raw := clamp0100 (llm_scores.education_score.getD 50)
  let certs_raw := clamp0100 (llm_scores.certs_extras_score.getD 50)
  let experience_weighted := experience_raw * WEIGHTS.experience
  let impact_weighted := impact_raw * WEIGHTS.impact
  let skills_weighted := skills_raw * WEIGHTS.skills
  let education_weighted := education_raw * WEIGHTS.education
  let certs_weighted := certs_raw * WEIGHTS.certs_extras
  let total_score := experience_weighted + impact_weighted + skills_weighted +
    education_weighted + certs_weighted
  { experience_score := round1 experience_weighted
    impact_score := round1 impact_weighted
    skills_score := round1 skills_weighted
    education_score := round1 education_weighted
    certs_extras_score := round1 certs_weighted
    score := round1 total_score
    recommendation := recommendationFor total_score
    experience_score_raw := round1 experience_raw
    impact_score_raw := round1 impact_raw
    skills_score_raw := round1 skills_raw
    education_score_raw := round1 education_raw
    certs_extras_score_raw := round1 certs_raw }

/-- The fields of the decoded JSON object that the pipeline reads: the five
numeric sub-scores plus the free-text parts that survive the merge
`{**json_data, **weighted_scores}`.  `none` models an absent key. -/
structure JsonData where
  scores : LLMScores
  strengths : Option (List String)
  weaknesses : Option (List String)
  summary : Option String
  detailed_reasoning : Option String
deriving DecidableEq

/-- The result dictionary of the scorer, as the rest of the pipeline reads
it.  Optional fields model keys that some branches leave absent. -/
structure AnalysisResult where
  experience_score : Option ℚ
  impact_score : Option ℚ
  skills_score : Option ℚ
  education_score : Option ℚ
  certs_extras_score : Option ℚ
  score : ℚ
  recommendation : String
  experience_score_raw : Option ℚ
  impact_score_raw : Option ℚ
  skills_score_raw : Option ℚ
  education_score_raw : Option ℚ
  certs_extras_score_raw : Option ℚ
  strengths : Option (List String)
  weaknesses : Option (List String)
  summary : Option String
  detailed_reasoning : Option String
deriving DecidableEq

/-- The merge `{**json_data, **weighted_scores}` on a successful parse: the
computed entries overwrite the identically named raw LLM entries. -/
def mergeScores (json_data : JsonData) : AnalysisResult :=
  let w := calculate_weighted_score json_data.scores
  { experience_score := some w.experience_score
    impact_score := some w.impact_score
    skills_score := some w.skills_score
    education_score := some w.education_score
    certs_extras_score := some w.certs_extras_score
    score := w.score
    recommendation := w.recommendation
    experience_score_raw := some w.experience_score_raw
    impact_score_raw := some w.impact_score_raw
    skills_score_raw := some w.skills_score_raw
    education_score_raw := some w.education_score_raw
    certs_extras_score_raw := some w.certs_extras_score_raw
    strengths := json_data.strengths
    weaknesses := json_data.weaknesses
    summary := json_data.summary
    detailed_reasoning := json_data.detailed_reasoning }

/-- The two failure dictionaries of `parse_score_from_json` (no JSON found,
or `json.loads` raised): fixed strings merged with
`calculate_weighted_score({})`. -/
def parseFailureResult (weaknesses : List String) (json_str : String) :
    AnalysisResult :=
  let w := calculate_weighted_score ⟨none, none, none, none, none⟩
  { experience_score := some w.experience_score
    impact_score := some w.impact_score
    skills_score := some w.skills_score
    education_score := some w.education_score
    certs_extras_score := some w.certs_extras_score
    score := w.score
    recommendation := w.recommendation
    experience_score_raw := some w.experience_score_raw
    impact_score_raw := some w.impact_score_raw
    skills_score_raw := some w.skills_score_raw
    education_score_raw := some w.education_score_raw
    certs_extras_score_raw := some w.certs_extras_score_raw
    strengths := some ["Unable to parse analysis"]
    weaknesses := some weaknesses
    summary := some "Error parsing response"
    detailed_reasoning := some json_str }

/-- The regex search `re.search(r'\x7b.*\x7d', json_str, re.DOTALL)`: the
greedy match runs from the first opening brace to the last closing brace of
the whole string, provided that closing brace comes after the opening one. -/
def extractJson (s : String) : Option String :=
  let rest := s.data.dropWhile (fun c => c ≠ '{')
  let tailLen := (rest.reverse.takeWhile (fun c => c ≠ '}')).length
  if tailLen = rest.length then none
  else some (String.mk (rest.take (rest.length - tailLen)))

/-- `CVAnalyzer.parse_score_from_json`.  The standard-library decoder
`json.loads` is an external collaborator, passed in as `json_loads`
(returning `Except.error` when it raises). -/
def parse_score_from_json (json_loads : String → Except String JsonData)
    (json_str : String) : AnalysisResult :=
  match extractJson json_str with
  | some js =>
    match json_loads js with
    | .ok json_data => mergeScores json_data
    | .error e => parseFailureResult ["Parse error: " ++ e] json_str
  | none => parseFailureResult ["Analysis format error"] json_str

/-- The external boundaries of `CVAnalyzer`: the LLM chain invocation
(`prompt` and attempt number to response content or raised exception) and
the JSON decoder. -/
structure LLMBoundary where
  invoke : String → ℕ → Except String String
  json_loads : String → Except String JsonData

/-- The `except` branch of `CVAnalyzer.score_cv` (its `key_matches: {}`
entry, read nowhere, is not carried). -/
def errorAnalysis (e : String) : AnalysisResult :=
  { experience_score := none
    impact_score := none
    skills_score := none
    education_score := none
    certs_extras_score := none
    score := 0
    recommendation := "ERROR"
    experience_score_raw := none
    impact_score_raw := none
    skills_score_raw := none
    education_score_raw := none
    certs_extras_score_raw := none
    strengths := some []
    weaknesses := some ["Analysis error: " ++ e]
    summary := some "Error during analysis"
    detailed_reasoning := some e }

/-- The body of `CVAnalyzer.score_cv` as executed on one retry attempt: its
`try` block invokes the chain and parses the response; its `except` block
converts any raised exception into the ERROR dictionary, so the body itself
never raises. -/
def score_cv_attempt (B : LLMBoundary) (job_description cv_content : String)
    (candidate_number : ℕ) (attempt : ℕ) : Except String AnalysisResult :=
  match B.invoke (SCORING_PROMPT_filled job_description cv_content candidate_number)
      attempt with
  | .ok content => .ok (parse_score_from_json B.json_loads content)
  | .error e => .ok (errorAnalysis e)

/-- `CVAnalyzer.score_cv`: the body wrapped by
`@retry_with_exponential_backoff(max_retries=3)` (delays from constants). -/
def score_cv (B : LLMBoundary) (job_description cv_content : String)
    (candidate_number : ℕ) : RetryTrace AnalysisResult :=
  retry_with_exponential_backoff MAX_RETRIES INITIAL_RETRY_DELAY MAX_RETRY_DELAY
    (score_cv_attempt B job_description cv_content candidate_number)

/-- One element of the `cv_data_list` input of `batch_score_cvs`. -/
structure CVData where
  file_name : String
  text : String
deriving DecidableEq

/-- One element of the list `batch_score_cvs` returns. -/
structure BatchEntry where
  file_name : String
  cv_data : CVData
  score : ℚ
  recommendation : String
  analysis : AnalysisResult
deriving DecidableEq

/-- One iteration of the collection loop of `batch_score_cvs` (`score_cv` is
called with its default `candidate_number=1` there); an exception escaping
`score_cv` would abort the batch, hence the `Except`. -/
def batch_entry (B : LLMBoundary) (job_description : String) (cv : CVData) :
    Except String BatchEntry :=
  match (score_cv B job_description cv.text 1).result with
  | .ok analysis =>
    .ok ⟨cv.file_name, cv, analysis.score, analysis.recommendation, analysis⟩
  | .error e => .error e

/-- Sort order of `results.sort(key=lambda x: x['score'], reverse=True)`:
`a` may come before `b` exactly when its score is at least `b`'s.  A stable
sort with this order is Python's stable descending sort. -/
def scoreDescOrder (a b : BatchEntry) : Prop := b.score ≤ a.score

instance : DecidableRel scoreDescOrder :=
  fun a b => inferInstanceAs (Decidable (b.score ≤ a.score))

/-- The unsorted collection loop of `batch_score_cvs`. -/
def batch_results (B : LLMBoundary) (job_description : String)
    (cv_data_list : List CVData) : Except String (List BatchEntry) :=
  cv_data_list.mapM (batch_entry B job_description)

/-- `CVAnalyzer.batch_score_cvs`: score every CV, then sort by score
descending with Python's stable `list.sort` (modelled by the stable
`insertionSort`). -/
def batch_score_cvs (B : LLMBoundary) (job_description : String)
    (cv_data_list : List CVData) : Except String (List BatchEntry) := do
  let results ← batch_results B job_description cv_data_list
  pure (results.insertionSort scoreDescOrder)

/-! ### src/core/cv_processor.py — CVProcessor.extract_candidate_name -/

/-- The header stoplist of `extract_candidate_name`. -/
def NAME_HEADERS : List (List Char) :=
  ["CURRICULUM VITAE".data, "CV".data, "RESUME".data, "CONTACT".data,
    "PERSONAL INFORMATION".data]

/-- The name test: 2 to 4 words, every word alphabetic once periods and
commas are removed (Python `isalpha`, false on the empty string). -/
def looksLikeName (line : List Char) : Bool :=
  let words := wordsOf line
  decide (2 ≤ words.length) && decide (words.length ≤ 4) &&
    words.all (fun w =>
      let w2 := removeChar ',' (removeChar '.' w)
      (!w2.isEmpty) && w2.all Char.isAlpha)

/-- First loop of `extract_candidate_name` over `lines[:5]`: strip, skip
empty and stoplisted lines, return the first line passing `looksLikeName`. -/
def findNameLoop : List (List Char) → Option (List Char)
  | [] => none
  | l :: ls =>
    let line := trimChars l
    if line = [] ∨ upperChars line ∈ NAME_HEADERS then findNameLoop ls
    else if looksLikeName line then some line
    else findNameLoop ls

/-- Second loop over `lines[:10]`: first stripped line that is non-empty and
shorter than 50 characters. -/
def findFallbackLoop : List (List Char) → Option (List Char)
  | [] => none
  | l :: ls =>
    let line := trimChars l
    if line ≠ [] ∧ line.length < 50 then some line
    else findFallbackLoop ls

/-- `CVProcessor.extract_candidate_name`. -/
def extract_candidate_name (text : String) : String :=
  let lines := splitOnChar '\n' (trimChars text.data)
  match findNameLoop (lines.take 5) with
  | some line => String.mk line
  | none =>
    match findFallbackLoop (lines.take 10) with
    | some line => String.mk line
    | none => "Unknown Candidate"

/-! ### src/features/analysis.py — analyze_cvs -/

/-- Worker pool size of the batch: `ThreadPoolExecutor(max_workers=min(5, total))`. -/
def max_workers (total : ℕ) : ℕ := min 5 total

/-- One element of `parsed_cv_list` (the fields the scoring step reads). -/
structure ParsedCV where
  file_name : String
  raw_text : String
  candidate_number : ℕ
deriving DecidableEq

/-- The numbering loop of `analyze_cvs`: `candidate_number` is `i + 1` for
the `i`-th uploaded CV. -/
def parsed_cv_list (cv_raw_list : List CVData) : List ParsedCV :=
  cv_raw_list.enum.map (fun p => ⟨p.2.file_name, p.2.text, p.1 + 1⟩)

/-- The prompt `analyze_single_cv`'s call
`analyzer.score_cv(job_description, cv_data['raw_text'], cv_data['candidate_number'])`
sends to the LLM. -/
def score_cv_prompt (job_description : String) (cv : ParsedCV) : String :=
  SCORING_PROMPT_filled job_description cv.raw_text cv.candidate_number

/-! ### Arithmetic facts about round1 and clamp0100 -/

theorem round1_intCast (n : ℤ) : round1 (n : ℚ) = (n : ℚ) := by
  unfold round1
  have h : ⌊10 * (n : ℚ) + 1 / 2⌋ = 10 * n := by
    rw [Int.floor_eq_iff]
    constructor
    · push_cast
      linarith
    · push_cast
      linarith
  rw [h]
  push_cast
  ring

theorem round1_mono {a b : ℚ} (h : a ≤ b) : round1 a ≤ round1 b := by
  unfold round1
  have h1 : ⌊10 * a + 1 / 2⌋ ≤ ⌊10 * b + 1 / 2⌋ := Int.floor_le_floor (by linarith)
  have h2 : ((⌊10 * a + 1 / 2⌋ : ℤ) : ℚ) ≤ ((⌊10 * b + 1 / 2⌋ : ℤ) : ℚ) := by
    exact_mod_cast h1
  linarith

theorem round1_zero : round1 0 = 0 := by
  have h := round1_intCast 0
  exact_mod_cast h

theorem round1_nonneg {q : ℚ} (h : 0 ≤ q) : 0 ≤ round1 q :=
  round1_zero ▸ round1_mono h

theorem round1_le_100 {q : ℚ} (h : q ≤ 100) : round1 q ≤ 100 := by
  have h1 : round1 q ≤ round1 ((100 : ℤ) : ℚ) := round1_mono (by exact_mod_cast h)
  rw [round1_intCast] at h1
  exact_mod_cast h1

theorem clamp0100_nonneg (q : ℚ) : 0 ≤ clamp0100 q := le_max_left 0 _

theorem clamp0100_le (q : ℚ) : clamp0100 q ≤ 100 :=
  max_le (by norm_num) (min_le_left _ _)

/-- C1: for every input rubric dictionary the scorer clamps each of the five
raw sub-scores to [0,100], then takes the weighted sum with the fixed
weights 0.30/0.20/0.20/0.20/0.10 rounded to one decimal; the total is always
in [0,100], and a raw experience score of 150 is clamped to 100, giving the
weighted contribution 30.0. -/
theorem weighted_score_clamps_weights_and_bounds (llm_scores : LLMScores) :
    (WEIGHTS.experience = 3 / 10 ∧ WEIGHTS.impact = 2 / 10 ∧
      WEIGHTS.skills = 2 / 10 ∧ WEIGHTS.education = 2 / 10 ∧
      WEIGHTS.certs_extras = 1 / 10) ∧
    (calculate_weighted_score llm_scores).score =
      round1 (clamp0100 (llm_scores.experience_score.getD 50) * WEIGHTS.experience +
        clamp0100 (llm_scores.impact_score.getD 50) * WEIGHTS.impact +
        clamp0100 (llm_scores.skills_score.getD 50) * WEIGHTS.skills +
        clamp0100 (llm_scores.education_score.getD 50) * WEIGHTS.education +
        clamp0100 (llm_scores.certs_extras_score.getD 50) * WEIGHTS.certs_extras) ∧
    0 ≤ (calculate_weighted_score llm_scores).score ∧
    (calculate_weighted_score llm_scores).score ≤ 100 ∧
    (calculate_weighted_score ⟨some 150, some 0, some 0, some 0, some 0⟩).experience_score = 30 := by
  have hw : WEIGHTS.experience = 3 / 10 ∧ WEIGHTS.impact = 2 / 10 ∧
      WEIGHTS.skills = 2 / 10 ∧ WEIGHTS.education = 2 / 10 ∧
      WEIGHTS.certs_extras = 1 / 10 := by
    refine ⟨?_, ?_, ?_, ?_, ?_⟩ <;> norm_num [WEIGHTS]
  have he := clamp0100_nonneg (llm_scores.experience_score.getD 50)
  have he2 := clamp0100_le (llm_scores.experience_score.getD 50)
  have hi := clamp0100_nonneg (llm_scores.impact_score.getD 50)
  have hi2 := clamp0100_le (llm_scores.impact_score.getD 50)
  have hs := clamp0100_nonneg (llm_scores.skills_score.getD 50)
  have hs2 := clamp0100_le (llm_scores.skills_score.getD 50)
  have hd := clamp0100_nonneg (llm_scores.education_score.getD 50)
  have hd2 := clamp0100_le (llm_scores.education_score.getD 50)
  have hc := clamp0100_nonneg (llm_scores.certs_extras_score.getD 50)
  have hc2 := clamp0100_le (llm_scores.certs_extras_score.getD 50)
  refine ⟨hw, rfl, ?_, ?_, ?_⟩
  · exact round1_nonneg (by
      rw [hw.1, hw.2.1, hw.2.2.1, hw.2.2.2.1, hw.2.2.2.2]
      nlinarith)
  · exact round1_le_100 (by
      rw [hw.1, hw.2.1, hw.2.2.1, hw.2.2.2.1, hw.2.2.2.2]
      nlinarith)
  · show round1 (clamp0100 ((some (150 : ℚ)).getD 50) * WEIGHTS.experience) = 30
    have h1 : clamp0100 ((some (150 : ℚ)).getD 50) * WEIGHTS.experience = 30 := by
      norm_num [clamp0100, WEIGHTS]
    rw [h1]
    exact_mod_cast round1_intCast 30

/-- C4: the recommendation tier applied by `calculate_weighted_score` to the
total score is a pure step function with inclusive lower bounds: at least 80
gives STRONGLY RECOMMEND, at least 60 gives RECOMMEND, at least 40 gives
CONSIDER, and below 40 gives REJECT. -/
theorem recommendation_tier_step_function (t : ℚ) :
    (∀ ls : LLMScores, (calculate_weighted_score ls).recommendation =
      recommendationFor (clamp0100 (ls.experience_score.getD 50) * WEIGHTS.experience +
        clamp0100 (ls.impact_score.getD 50) * WEIGHTS.impact +
        clamp0100 (ls.skills_score.getD 50) * WEIGHTS.skills +
        clamp0100 (ls.education_score.getD 50) * WEIGHTS.education +
        clamp0100 (ls.certs_extras_score.getD 50) * WEIGHTS.certs_extras)) ∧
    (80 ≤ t → recommendationFor t = "STRONGLY RECOMMEND") ∧
    (60 ≤ t → t < 80 → recommendationFor t = "RECOMMEND") ∧
    (40 ≤ t → t < 60 → recommendationFor t = "CONSIDER") ∧
    (t < 40 → recommendationFor t = "REJECT") := by
  refine ⟨fun _ => rfl, ?_, ?_, ?_, ?_⟩
  · intro h
    unfold recommendationFor
    rw [if_pos h]
  · intro h1 h2
    unfold recommendationFor
    rw [if_neg (by linarith), if_pos h1]
  · intro h1 h2
    unfold recommendationFor
    rw [if_neg (by linarith), if_neg (by linarith), if_pos h1]
  · intro h
    unfold recommendationFor
    rw [if_neg (by linarith), if_neg (by linarith), if_neg (by linarith)]

/-- Witness for C4 at the four boundary scores of the claim. -/
theorem recommendation_tier_step_function_witness :
    recommendationFor 80 = "STRONGLY RECOMMEND" ∧
    recommendationFor (799 / 10) = "RECOMMEND" ∧
    recommendationFor 40 = "CONSIDER" ∧
    recommendationFor (399 / 10) = "REJECT" :=
  ⟨(recommendation_tier_step_function 80).2.1 (by norm_num),
   (recommendation_tier_step_function (799 / 10)).2.2.1 (by norm_num) (by norm_num),
   (recommendation_tier_step_function 40).2.2.2.1 (by norm_num) (by norm_num),
   (recommendation_tier_step_function (399 / 10)).2.2.2.2 (by norm_num)⟩

/-! ### Behaviour of parse_score_from_json -/

theorem clamp0100_of_mem {x : ℚ} (h0 : 0 ≤ x) (h1 : x ≤ 100) : clamp0100 x = x := by
  unfold clamp0100
  rw [min_eq_right h1, max_eq_right h0]

theorem round1_le_intCast {q : ℚ} {n : ℤ} (h : q ≤ (n : ℚ)) : round1 q ≤ (n : ℚ) :=
  le_trans (round1_mono h) (le_of_eq (round1_intCast n))

theorem calculate_weighted_score_default :
    calculate_weighted_score ⟨none, none, none, none, none⟩ =
      ⟨15, 10, 10, 10, 5, 50, "CONSIDER", 50, 50, 50, 50, 50⟩ := by
  have r15 : round1 (15 : ℚ) = 15 := by exact_mod_cast round1_intCast 15
  have r10 : round1 (10 : ℚ) = 10 := by exact_mod_cast round1_intCast 10
  have r5 : round1 (5 : ℚ) = 5 := by exact_mod_cast round1_intCast 5
  have r50 : round1 (50 : ℚ) = 50 := by exact_mod_cast round1_intCast 50
  have hrec : recommendationFor 50 = "CONSIDER" := by norm_num [recommendationFor]
  simp only [calculate_weighted_score, WEIGHTS, clamp0100, Option.getD]
  norm_num [r15, r10, r5, r50, hrec]

theorem parse_score_from_json_of_none {jl : String → Except String JsonData}
    {s : String} (h : extractJson s = none) :
    parse_score_from_json jl s = parseFailureResult ["Analysis format error"] s := by
  unfold parse_score_from_json
  rw [h]

theorem parse_score_from_json_of_err {jl : String → Except String JsonData}
    {s js e : String} (h1 : extractJson s = some js) (h2 : jl js = .error e) :
    parse_score_from_json jl s = parseFailureResult ["Parse error: " ++ e] s := by
  simp [parse_score_from_json, h1, h2]

theorem parse_score_from_json_of_ok {jl : String → Except String JsonData}
    {s js : String} {d : JsonData} (h1 : extractJson s = some js)
    (h2 : jl js = .ok d) :
    parse_score_from_json jl s = mergeScores d := by
  simp [parse_score_from_json, h1, h2]

theorem parseFailureResult_fields (ws : List String) (s : String) :
    (parseFailureResult ws s).recommendation = "CONSIDER" ∧
    (parseFailureResult ws s).score = 50 ∧
    (parseFailureResult ws s).experience_score = some 15 ∧
    (parseFailureResult ws s).impact_score = some 10 ∧
    (parseFailureResult ws s).skills_score = some 10 ∧
    (parseFailureResult ws s).education_score = some 10 ∧
    (parseFailureResult ws s).certs_extras_score = some 5 ∧
    (parseFailureResult ws s).experience_score_raw = some 50 ∧
    (parseFailureResult ws s).impact_score_raw = some 50 ∧
    (parseFailureResult ws s).skills_score_raw = some 50 ∧
    (parseFailureResult ws s).education_score_raw = some 50 ∧
    (parseFailureResult ws s).certs_extras_score_raw = some 50 ∧
    (parseFailureResult ws s).summary = some "Error parsing response" ∧
    (parseFailureResult ws s).strengths = some ["Unable to parse analysis"] ∧
    (parseFailureResult ws s).weaknesses = some ws ∧
    (parseFailureResult ws s).detailed_reasoning = some s := by
  simp [parseFailureResult, calculate_weighted_score_default]

/-- C2 (amended): an LLM response with no extractable JSON, or whose JSON
fails to decode, yields — without raising — the default result: CONSIDER,
the unparseable markers in summary/strengths/weaknesses and the raw response
in detailed_reasoning, the five sub-scores defaulted to raw 50 (weighted
contributions 15/10/10/10/5), and total 50.0, the output of
`calculate_weighted_score` on the empty dictionary. -/
theorem parse_failure_returns_default_consider
    (json_loads : String → Except String JsonData) (s : String) :
    (extractJson s = none →
      parse_score_from_json json_loads s =
        parseFailureResult ["Analysis format error"] s) ∧
    (∀ js e, extractJson s = some js → json_loads js = .error e →
      parse_score_from_json json_loads s =
        parseFailureResult ["Parse error: " ++ e] s) ∧
    (∀ ws s2, (parseFailureResult ws s2).recommendation = "CONSIDER" ∧
      (parseFailureResult ws s2).score = 50 ∧
      (parseFailureResult ws s2).experience_score = some 15 ∧
      (parseFailureResult ws s2).impact_score = some 10 ∧
      (parseFailureResult ws s2).skills_score = some 10 ∧
      (parseFailureResult ws s2).education_score = some 10 ∧
      (parseFailureResult ws s2).certs_extras_score = some 5 ∧
      (parseFailureResult ws s2).experience_score_raw = some 50 ∧
      (parseFailureResult ws s2).impact_score_raw = some 50 ∧
      (parseFailureResult ws s2).skills_score_raw = some 50 ∧
      (parseFailureResult ws s2).education_score_raw = some 50 ∧
      (parseFailureResult ws s2).certs_extras_score_raw = some 50 ∧
      (parseFailureResult ws s2).summary = some "Error parsing response" ∧
      (parseFailureResult ws s2).weaknesses = some ws ∧
      (parseFailureResult ws s2).detailed_reasoning = some s2 ∧
      (parseFailureResult ws s2).score =
        (calculate_weighted_score ⟨none, none, none, none, none⟩).score) := by
  refine ⟨fun h => parse_score_from_json_of_none h,
    fun js e h1 h2 => parse_score_from_json_of_err h1 h2,
    fun ws s2 => ?_⟩
  have h := parseFailureResult_fields ws s2
  exact ⟨h.1, h.2.1, h.2.2.1, h.2.2.2.1, h.2.2.2.2.1, h.2.2.2.2.2.1,
    h.2.2.2.2.2.2.1, h.2.2.2.2.2.2.2.1, h.2.2.2.2.2.2.2.2.1,
    h.2.2.2.2.2.2.2.2.2.1, h.2.2.2.2.2.2.2.2.2.2.1,
    h.2.2.2.2.2.2.2.2.2.2.2.1, h.2.2.2.2.2.2.2.2.2.2.2.2.1,
    h.2.2.2.2.2.2.2.2.2.2.2.2.2.2.1,
    h.2.2.2.2.2.2.2.2.2.2.2.2.2.2.2,
    by rw [h.2.1, calculate_weighted_score_default]⟩

/-- Witness for C2 on a response with no JSON and on one whose JSON decoding
raises. -/
theorem parse_failure_returns_default_consider_witness :
    parse_score_from_json (fun _ => Except.error "bad") "no json here" =
      parseFailureResult ["Analysis format error"] "no json here" ∧
    parse_score_from_json (fun _ => Except.error "bad") "x{y}z" =
      parseFailureResult ["Parse error: " ++ "bad"] "x{y}z" ∧
    (parseFailureResult ["Analysis format error"] "no json here").recommendation =
      "CONSIDER" :=
  ⟨(parse_failure_returns_default_consider (fun _ => Except.error "bad")
      "no json here").1 (by decide),
   (parse_failure_returns_default_consider (fun _ => Except.error "bad")
      "x{y}z").2.1 "{y}" "bad" (by decide) rfl,
   ((parse_failure_returns_default_consider (fun _ => Except.error "bad")
      "no json here").2.2 ["Analysis format error"] "no json here").1⟩

/-- C2 counterexample: on an unparseable response the sub-score entries are
not floored to zero — the experience entry is the weighted contribution 15.0
of the defaulted raw 50. -/
theorem parse_failure_subscores_not_floored :
    (parse_score_from_json (fun _ => Except.error "bad") "no json here").experience_score = some 15 ∧
    (parse_score_from_json (fun _ => Except.error "bad") "no json here").experience_score_raw = some 50 ∧
    some (15 : ℚ) ≠ some (0 : ℚ) ∧ some (50 : ℚ) ≠ some (0 : ℚ) := by
  have h := @parse_score_from_json_of_none
    (fun _ => Except.error "bad") "no json here" (by decide)
  rw [h]
  have hf := parseFailureResult_fields ["Analysis format error"] "no json here"
  exact ⟨hf.2.2.1, hf.2.2.2.2.2.2.2.1, by norm_num, by norm_num⟩

/-! ### C10: the merge overwrites the raw LLM entries -/

theorem weighted_entry_bounds (ls : LLMScores) :
    (calculate_weighted_score ls).experience_score ≤ 30 ∧
    (calculate_weighted_score ls).impact_score ≤ 20 ∧
    (calculate_weighted_score ls).skills_score ≤ 20 ∧
    (calculate_weighted_score ls).education_score ≤ 20 ∧
    (calculate_weighted_score ls).certs_extras_score ≤ 10 := by
  have he := clamp0100_le (ls.experience_score.getD 50)
  have hi := clamp0100_le (ls.impact_score.getD 50)
  have hs := clamp0100_le (ls.skills_score.getD 50)
  have hd := clamp0100_le (ls.education_score.getD 50)
  have hc := clamp0100_le (ls.certs_extras_score.getD 50)
  refine ⟨?_, ?_, ?_, ?_, ?_⟩
  · exact_mod_cast @round1_le_intCast _ 30 (by push_cast; norm_num [WEIGHTS]; linarith)
  · exact_mod_cast @round1_le_intCast _ 20 (by push_cast; norm_num [WEIGHTS]; linarith)
  · exact_mod_cast @round1_le_intCast _ 20 (by push_cast; norm_num [WEIGHTS]; linarith)
  · exact_mod_cast @round1_le_intCast _ 20 (by push_cast; norm_num [WEIGHTS]; linarith)
  · exact_mod_cast @round1_le_intCast _ 10 (by push_cast; norm_num [WEIGHTS]; linarith)

/-- C10: on a successful parse the computed weighted contributions overwrite
the LLM's raw values under the five `*_score` keys (each bounded by its
weight cap), while the supplied 0-100 sub-scores survive only under the
`*_raw` keys. -/
theorem parsed_result_weighted_overwrites_raw
    (json_loads : String → Except String JsonData) (s js : String) (d : JsonData)
    (h1 : extractJson s = some js) (h2 : json_loads js = .ok d) :
    parse_score_from_json json_loads s = mergeScores d ∧
    (parse_score_from_json json_loads s).experience_score =
      some ((calculate_weighted_score d.scores).experience_score) ∧
    (parse_score_from_json json_loads s).impact_score =
      some ((calculate_weighted_score d.scores).impact_score) ∧
    (parse_score_from_json json_loads s).skills_score =
      some ((calculate_weighted_score d.scores).skills_score) ∧
    (parse_score_from_json json_loads s).education_score =
      some ((calculate_weighted_score d.scores).education_score) ∧
    (parse_score_from_json json_loads s).certs_extras_score =
      some ((calculate_weighted_score d.scores).certs_extras_score) ∧
    (calculate_weighted_score d.scores).experience_score ≤ 30 ∧
    (calculate_weighted_score d.scores).impact_score ≤ 20 ∧
    (calculate_weighted_score d.scores).skills_score ≤ 20 ∧
    (calculate_weighted_score d.scores).education_score ≤ 20 ∧
    (calculate_weighted_score d.scores).certs_extras_score ≤ 10 ∧
    (parse_score_from_json json_loads s).experience_score_raw =
      some ((calculate_weighted_score d.scores).experience_score_raw) ∧
    (parse_score_from_json json_loads s).impact_score_raw =
      some ((calculate_weighted_score d.scores).impact_score_raw) ∧
    (parse_score_from_json json_loads s).skills_score_raw =
      some ((calculate_weighted_score d.scores).skills_score_raw) ∧
    (parse_score_from_json json_loads s).education_score_raw =
      some ((calculate_weighted_score d.scores).education_score_raw) ∧
    (parse_score_from_json json_loads s).certs_extras_score_raw =
      some ((calculate_weighted_score d.scores).certs_extras_score_raw) ∧
    (∀ x : ℚ, d.scores.experience_score = some x → 0 ≤ x → x ≤ 100 →
      (calculate_weighted_score d.scores).experience_score_raw = round1 x ∧
      (calculate_weighted_score d.scores).experience_score =
        round1 (x * WEIGHTS.experience)) := by
  have hp := parse_score_from_json_of_ok h1 h2
  have hb := weighted_entry_bounds d.scores
  rw [hp]
  refine ⟨rfl, rfl, rfl, rfl, rfl, rfl, hb.1, hb.2.1, hb.2.2.1, hb.2.2.2.1,
    hb.2.2.2.2, rfl, rfl, rfl, rfl, rfl, ?_⟩
  intro x hx h0 h100
  have hc : clamp0100 (d.scores.experience_score.getD 50) = x := by
    rw [hx]
    exact clamp0100_of_mem h0 h100
  constructor
  · show round1 (clamp0100 (d.scores.experience_score.getD 50)) = round1 x
    rw [hc]
  · show round1 (clamp0100 (d.scores.experience_score.getD 50) * WEIGHTS.experience) =
      round1 (x * WEIGHTS.experience)
    rw [hc]

/-- Witness for C10 on a concrete decoded response. -/
theorem parsed_result_weighted_overwrites_raw_witness :
    (parse_score_from_json
        (fun _ => Except.ok ⟨⟨some 80, some 70, some 60, some 90, some 50⟩,
          none, none, none, none⟩) "{j}").experience_score =
      some ((calculate_weighted_score
        ⟨some 80, some 70, some 60, some 90, some 50⟩).experience_score) ∧
    (calculate_weighted_score
        ⟨some 80, some 70, some 60, some 90, some 50⟩).experience_score_raw =
      round1 80 ∧
    (calculate_weighted_score
        ⟨some 80, some 70, some 60, some 90, some 50⟩).experience_score =
      round1 (80 * WEIGHTS.experience) := by
  have h := parsed_result_weighted_overwrites_raw
    (fun _ => Except.ok ⟨⟨some 80, some 70, some 60, some 90, some 50⟩,
      none, none, none, none⟩) "{j}" "{j}"
    ⟨⟨some 80, some 70, some 60, some 90, some 50⟩, none, none, none, none⟩
    (by decide) rfl
  have hx := h.2.2.2.2.2.2.2.2.2.2.2.2.2.2.2.2 80 rfl (by norm_num) (by norm_num)
  exact ⟨h.2.1, hx.1, hx.2⟩

/-! ### C5: the retry policy -/

/-- C5 counterexample: the message "RATE LIMIT" contains none of the three
substrings "rate limit", "quota", "429", yet the decorator does not
propagate it immediately — it sleeps 2s and 4s and raises the terminal
max-retries error, because the substring match runs on the lowercased
message. -/
theorem retry_matches_lowercased_message :
    pyContains "rate limit" "RATE LIMIT" = false ∧
    pyContains "quota" "RATE LIMIT" = false ∧
    pyContains "429" "RATE LIMIT" = false ∧
    retry_with_exponential_backoff MAX_RETRIES INITIAL_RETRY_DELAY MAX_RETRY_DELAY
        (fun _ => (Except.error "RATE LIMIT" : Except String ℕ)) =
      ⟨.error ("Max retries (" ++ toString MAX_RETRIES ++
        ") reached. Rate limit error: " ++ "RATE LIMIT"), 3, [2, 4]⟩ := by
  refine ⟨by decide, by decide, by decide, by decide⟩

/-- C5 (amended): with max_retries=3, initial_delay=2, max_delay=30 — an
exception whose lowercased message contains none of "rate limit", "quota",
"429" propagates immediately without any retry; an exception recognised as
rate-limiting is retried after sleeping the current delay, which starts at 2
and doubles capped at 30 (2s then 4s); after the third consecutive
rate-limit failure the terminal error wrapping the last exception with the
"Max retries (3) reached" message is raised. -/
theorem retry_policy_behaviour {α : Type} (e : String) (f : ℕ → Except String α) :
    (isRateLimitError e = false → f 0 = .error e →
      retry_with_exponential_backoff MAX_RETRIES INITIAL_RETRY_DELAY MAX_RETRY_DELAY f =
        ⟨.error e, 1, []⟩) ∧
    (isRateLimitError e = true → (∀ n, f n = .error e) →
      retry_with_exponential_backoff MAX_RETRIES INITIAL_RETRY_DELAY MAX_RETRY_DELAY f =
        ⟨.error ("Max retries (" ++ toString MAX_RETRIES ++
          ") reached. Rate limit error: " ++ e), 3, [2, 4]⟩) := by
  constructor
  · intro hrl hf
    simp [retry_with_exponential_backoff, MAX_RETRIES, INITIAL_RETRY_DELAY,
      MAX_RETRY_DELAY, retryGo, hf, hrl]
  · intro hrl hf
    simp [retry_with_exponential_backoff, MAX_RETRIES, INITIAL_RETRY_DELAY,
      MAX_RETRY_DELAY, retryGo, hf, hrl]

/-- Witness for C5: a non-rate-limit error propagates at once; a quota error
is retried twice then wrapped. -/
theorem retry_policy_behaviour_witness :
    isRateLimitError "boom" = false ∧
    retry_with_exponential_backoff MAX_RETRIES INITIAL_RETRY_DELAY MAX_RETRY_DELAY
        (fun _ => (Except.error "boom" : Except String ℕ)) = ⟨.error "boom", 1, []⟩ ∧
    isRateLimitError "quota exceeded" = true ∧
    retry_with_exponential_backoff MAX_RETRIES INITIAL_RETRY_DELAY MAX_RETRY_DELAY
        (fun _ => (Except.error "quota exceeded" : Except String ℕ)) =
      ⟨.error ("Max retries (" ++ toString MAX_RETRIES ++
        ") reached. Rate limit error: " ++ "quota exceeded"), 3, [2, 4]⟩ :=
  ⟨by decide,
   (retry_policy_behaviour "boom" (fun _ => Except.error "boom")).1 (by decide) rfl,
   by decide,
   (retry_policy_behaviour "quota exceeded"
     (fun _ => Except.error "quota exceeded")).2 (by decide) (fun _ => rfl)⟩

/-! ### Evaluation lemmas for score_cv and batch_score_cvs -/

/-- What `score_cv` computes on its first (and, the body being total, only)
attempt. -/
def score_cv_result (B : LLMBoundary) (job_description cv_content : String)
    (candidate_number : ℕ) : AnalysisResult :=
  match B.invoke (SCORING_PROMPT_filled job_description cv_content candidate_number) 0 with
  | .ok content => parse_score_from_json B.json_loads content
  | .error e => errorAnalysis e

theorem score_cv_eq (B : LLMBoundary) (jd cv : String) (n : ℕ) :
    score_cv B jd cv n = ⟨.ok (score_cv_result B jd cv n), 1, []⟩ := by
  unfold score_cv retry_with_exponential_backoff MAX_RETRIES INITIAL_RETRY_DELAY
    MAX_RETRY_DELAY score_cv_result
  cases h : B.invoke (SCORING_PROMPT_filled jd cv n) 0 <;>
    simp [retryGo, score_cv_attempt, h]

/-- The entry `batch_score_cvs` appends for one CV. -/
def batch_entry_value (B : LLMBoundary) (job_description : String)
    (cv : CVData) : BatchEntry :=
  let analysis := score_cv_result B job_description cv.text 1
  ⟨cv.file_name, cv, analysis.score, analysis.recommendation, analysis⟩

theorem batch_entry_eq (B : LLMBoundary) (jd : String) (cv : CVData) :
    batch_entry B jd cv = .ok (batch_entry_value B jd cv) := by
  unfold batch_entry batch_entry_value
  rw [score_cv_eq]

/-- The unsorted batch collection, exception-free. -/
def batch_results_list (B : LLMBoundary) (jd : String) (l : List CVData) :
    List BatchEntry :=
  l.map (batch_entry_value B jd)

theorem batch_results_eq (B : LLMBoundary) (jd : String) :
    ∀ l : List CVData, batch_results B jd l = .ok (batch_results_list B jd l)
  | [] => rfl
  | c :: cs => by
    have ih : List.mapM (batch_entry B jd) cs = .ok (batch_results_list B jd cs) :=
      batch_results_eq B jd cs
    simp only [batch_results, batch_results_list, List.mapM_cons, List.map_cons,
      batch_entry_eq, ih]
    rfl

theorem batch_ok (B : LLMBoundary) (jd : String) (l : List CVData) :
    batch_score_cvs B jd l =
      .ok ((batch_results_list B jd l).insertionSort scoreDescOrder) := by
  unfold batch_score_cvs
  rw [batch_results_eq]
  rfl

/-! ### C3: terminal LLM failures and batch completeness -/

theorem calculate_weighted_score_fifty :
    calculate_weighted_score ⟨some 50, some 50, some 50, some 50, some 50⟩ =
      ⟨15, 10, 10, 10, 5, 50, "CONSIDER", 50, 50, 50, 50, 50⟩ := by
  have r15 : round1 (15 : ℚ) = 15 := by exact_mod_cast round1_intCast 15
  have r10 : round1 (10 : ℚ) = 10 := by exact_mod_cast round1_intCast 10
  have r5 : round1 (5 : ℚ) = 5 := by exact_mod_cast round1_intCast 5
  have r50 : round1 (50 : ℚ) = 50 := by exact_mod_cast round1_intCast 50
  have hrec : recommendationFor 50 = "CONSIDER" := by norm_num [recommendationFor]
  simp only [calculate_weighted_score, WEIGHTS, clamp0100, Option.getD]
  norm_num [r15, r10, r5, r50, hrec]

/-- An LLM boundary whose every call raises a rate-limit error. -/
def B_rate_limited : LLMBoundary :=
  ⟨fun _ _ => .error "rate limit exceeded", fun _ => .error "unused"⟩

/-- An LLM boundary that raises a quota error exactly on the prompt of the
candidate whose CV text is "FAILME" (recognised by the first 100 characters
of the prompt, which contain the short CV text of this batch) and answers a
parseable all-fifties rubric otherwise. -/
def B_one_failing : LLMBoundary :=
  ⟨fun p _ =>
    if p.data.take 100 = (SCORING_PROMPT_filled "Job" "FAILME" 1).data.take 100 then
      .error "quota exhausted" else .ok "{}",
   fun _ => .ok ⟨⟨some 50, some 50, some 50, some 50, some 50⟩, none, none, none, none⟩⟩

def five_cvs : List CVData :=
  [⟨"cv1.pdf", "A"⟩, ⟨"cv2.pdf", "B"⟩, ⟨"cv3.pdf", "FAILME"⟩,
   ⟨"cv4.pdf", "D"⟩, ⟨"cv5.pdf", "E"⟩]

set_option maxRecDepth 200000 in
set_option maxHeartbeats 1000000 in
/-- C3 (code-bug evaluation): a raising LLM call never reaches the retry
branch of the decorator — the internal except-block of `score_cv` converts
it into the ERROR result (score 0, recommendation "ERROR") on the very first
attempt, with no sleep and no retry, even for a rate-limit error; the batch
output still contains one entry per input candidate, and the concrete batch
of 5 with one terminal failure yields 5 entries, 4 with real scores and 1
tagged ERROR (sorted last with score 0). -/
theorem rate_limit_error_swallowed_without_retry :
    isRateLimitError "rate limit exceeded" = true ∧
    score_cv B_rate_limited "Job" "CV" 1 =
      ⟨.ok (errorAnalysis "rate limit exceeded"), 1, []⟩ ∧
    (errorAnalysis "rate limit exceeded").score = 0 ∧
    (errorAnalysis "rate limit exceeded").recommendation = "ERROR" ∧
    (∀ B jd l, batch_score_cvs B jd l =
        .ok ((batch_results_list B jd l).insertionSort scoreDescOrder) ∧
      (batch_results_list B jd l).length = l.length ∧
      ((batch_results_list B jd l).insertionSort scoreDescOrder).length = l.length) ∧
    batch_score_cvs B_one_failing "Job" five_cvs = .ok
      [batch_entry_value B_one_failing "Job" ⟨"cv1.pdf", "A"⟩,
       batch_entry_value B_one_failing "Job" ⟨"cv2.pdf", "B"⟩,
       batch_entry_value B_one_failing "Job" ⟨"cv4.pdf", "D"⟩,
       batch_entry_value B_one_failing "Job" ⟨"cv5.pdf", "E"⟩,
       batch_entry_value B_one_failing "Job" ⟨"cv3.pdf", "FAILME"⟩] ∧
    (batch_entry_value B_one_failing "Job" ⟨"cv3.pdf", "FAILME"⟩).recommendation = "ERROR" ∧
    (batch_entry_value B_one_failing "Job" ⟨"cv3.pdf", "FAILME"⟩).score = 0 ∧
    (batch_entry_value B_one_failing "Job" ⟨"cv1.pdf", "A"⟩).recommendation = "CONSIDER" ∧
    (batch_entry_value B_one_failing "Job" ⟨"cv1.pdf", "A"⟩).score = 50 ∧
    (batch_entry_value B_one_failing "Job" ⟨"cv2.pdf", "B"⟩).score = 50 ∧
    (batch_entry_value B_one_failing "Job" ⟨"cv4.pdf", "D"⟩).score = 50 ∧
    (batch_entry_value B_one_failing "Job" ⟨"cv5.pdf", "E"⟩).score = 50 := by
  have hok : ∀ t : String,
      B_one_failing.invoke (SCORING_PROMPT_filled "Job" t 1) 0 = .ok "{}" →
      score_cv_result B_one_failing "Job" t 1 =
        mergeScores ⟨⟨some 50, some 50, some 50, some 50, some 50⟩, none, none, none, none⟩ := by
    intro t hinv
    unfold score_cv_result
    rw [hinv]
    exact @parse_score_from_json_of_ok B_one_failing.json_loads "{}" "{}" _ (by decide) rfl
  have hA : score_cv_result B_one_failing "Job" "A" 1 =
      mergeScores ⟨⟨some 50, some 50, some 50, some 50, some 50⟩, none, none, none, none⟩ :=
    hok "A" (by decide)
  have hB : score_cv_result B_one_failing "Job" "B" 1 =
      mergeScores ⟨⟨some 50, some 50, some 50, some 50, some 50⟩, none, none, none, none⟩ :=
    hok "B" (by decide)
  have hD : score_cv_result B_one_failing "Job" "D" 1 =
      mergeScores ⟨⟨some 50, some 50, some 50, some 50, some 50⟩, none, none, none, none⟩ :=
    hok "D" (by decide)
  have hE : score_cv_result B_one_failing "Job" "E" 1 =
      mergeScores ⟨⟨some 50, some 50, some 50, some 50, some 50⟩, none, none, none, none⟩ :=
    hok "E" (by decide)
  have hFail : score_cv_result B_one_failing "Job" "FAILME" 1 =
      errorAnalysis "quota exhausted" := by
    unfold score_cv_result
    have hinv : B_one_failing.invoke (SCORING_PROMPT_filled "Job" "FAILME" 1) 0 =
        .error "quota exhausted" := by
      show (if (SCORING_PROMPT_filled "Job" "FAILME" 1).data.take 100 =
            (SCORING_PROMPT_filled "Job" "FAILME" 1).data.take 100
          then (.error "quota exhausted" : Except String String) else .ok "{}") =
        .error "quota exhausted"
      rw [if_pos rfl]
    rw [hinv]
  have hm : (mergeScores ⟨⟨some 50, some 50, some 50, some 50, some 50⟩,
      none, none, none, none⟩).score = 50 ∧
      (mergeScores ⟨⟨some 50, some 50, some 50, some 50, some 50⟩,
      none, none, none, none⟩).recommendation = "CONSIDER" := by
    constructor <;> simp [mergeScores, calculate_weighted_score_fifty]
  have e1 : (batch_entry_value B_one_failing "Job" ⟨"cv1.pdf", "A"⟩).score = 50 := by
    unfold batch_entry_value
    simp only [hA]
    exact hm.1
  have e1r : (batch_entry_value B_one_failing "Job" ⟨"cv1.pdf", "A"⟩).recommendation = "CONSIDER" := by
    unfold batch_entry_value
    simp only [hB, hA]
    exact hm.2
  have e2 : (batch_entry_value B_one_failing "Job" ⟨"cv2.pdf", "B"⟩).score = 50 := by
    unfold batch_entry_value
    simp only [hB]
    exact hm.1
  have e4 : (batch_entry_value B_one_failing "Job" ⟨"cv4.pdf", "D"⟩).score = 50 := by
    unfold batch_entry_value
    simp only [hD]
    exact hm.1
  have e5 : (batch_entry_value B_one_failing "Job" ⟨"cv5.pdf", "E"⟩).score = 50 := by
    unfold batch_entry_value
    simp only [hE]
    exact hm.1
  have e3 : (batch_entry_value B_one_failing "Job" ⟨"cv3.pdf", "FAILME"⟩).score = 0 := by
    unfold batch_entry_value
    simp only [hFail]
    rfl
  have e3r : (batch_entry_value B_one_failing "Job" ⟨"cv3.pdf", "FAILME"⟩).recommendation = "ERROR" := by
    unfold batch_entry_value
    simp only [hFail]
    rfl
  refine ⟨by decide, ?_, rfl, rfl, ?_, ?_, e3r, e3, e1r, e1, e2, e4, e5⟩
  · rw [score_cv_eq]
    rfl
  · intro B jd l
    refine ⟨batch_ok B jd l, by simp [batch_results_list], ?_⟩
    rw [List.length_insertionSort]
    simp [batch_results_list]
  · rw [batch_ok]
    have hl : batch_results_list B_one_failing "Job" five_cvs =
        [batch_entry_value B_one_failing "Job" ⟨"cv1.pdf", "A"⟩,
         batch_entry_value B_one_failing "Job" ⟨"cv2.pdf", "B"⟩,
         batch_entry_value B_one_failing "Job" ⟨"cv3.pdf", "FAILME"⟩,
         batch_entry_value B_one_failing "Job" ⟨"cv4.pdf", "D"⟩,
         batch_entry_value B_one_failing "Job" ⟨"cv5.pdf", "E"⟩] := rfl
    rw [hl]
    have h45 : scoreDescOrder (batch_entry_value B_one_failing "Job" ⟨"cv4.pdf", "D"⟩)
        (batch_entry_value B_one_failing "Job" ⟨"cv5.pdf", "E"⟩) := by
      show (batch_entry_value B_one_failing "Job" ⟨"cv5.pdf", "E"⟩).score ≤ _
      rw [e4, e5]
    have h34 : ¬ scoreDescOrder (batch_entry_value B_one_failing "Job" ⟨"cv3.pdf", "FAILME"⟩)
        (batch_entry_value B_one_failing "Job" ⟨"cv4.pdf", "D"⟩) := by
      show ¬ ((batch_entry_value B_one_failing "Job" ⟨"cv4.pdf", "D"⟩).score ≤ _)
      rw [e4, e3]
      norm_num
    have h35 : ¬ scoreDescOrder (batch_entry_value B_one_failing "Job" ⟨"cv3.pdf", "FAILME"⟩)
        (batch_entry_value B_one_failing "Job" ⟨"cv5.pdf", "E"⟩) := by
      show ¬ ((batch_entry_value B_one_failing "Job" ⟨"cv5.pdf", "E"⟩).score ≤ _)
      rw [e5, e3]
      norm_num
    have h24 : scoreDescOrder (batch_entry_value B_one_failing "Job" ⟨"cv2.pdf", "B"⟩)
        (batch_entry_value B_one_failing "Job" ⟨"cv4.pdf", "D"⟩) := by
      show (batch_entry_value B_one_failing "Job" ⟨"cv4.pdf", "D"⟩).score ≤ _
      rw [e2, e4]
    have h12 : scoreDescOrder (batch_entry_value B_one_failing "Job" ⟨"cv1.pdf", "A"⟩)
        (batch_entry_value B_one_failing "Job" ⟨"cv2.pdf", "B"⟩) := by
      show (batch_entry_value B_one_failing "Job" ⟨"cv2.pdf", "B"⟩).score ≤ _
      rw [e1, e2]
    have o5 : List.orderedInsert scoreDescOrder
        (batch_entry_value B_one_failing "Job" ⟨"cv5.pdf", "E"⟩) [] =
        [batch_entry_value B_one_failing "Job" ⟨"cv5.pdf", "E"⟩] := rfl
    have o4 := List.orderedInsert_of_le scoreDescOrder
      ([] : List BatchEntry) h45
    have o3 : List.orderedInsert scoreDescOrder
        (batch_entry_value B_one_failing "Job" ⟨"cv3.pdf", "FAILME"⟩)
        [batch_entry_value B_one_failing "Job" ⟨"cv4.pdf", "D"⟩,
         batch_entry_value B_one_failing "Job" ⟨"cv5.pdf", "E"⟩] =
        [batch_entry_value B_one_failing "Job" ⟨"cv4.pdf", "D"⟩,
         batch_entry_value B_one_failing "Job" ⟨"cv5.pdf", "E"⟩,
         batch_entry_value B_one_failing "Job" ⟨"cv3.pdf", "FAILME"⟩] := by
      simp only [List.orderedInsert]
      rw [if_neg h34, if_neg h35]
    have o2 := List.orderedInsert_of_le scoreDescOrder
      [batch_entry_value B_one_failing "Job" ⟨"cv5.pdf", "E"⟩,
       batch_entry_value B_one_failing "Job" ⟨"cv3.pdf", "FAILME"⟩] h24
    have o1 := List.orderedInsert_of_le scoreDescOrder
      [batch_entry_value B_one_failing "Job" ⟨"cv4.pdf", "D"⟩,
       batch_entry_value B_one_failing "Job" ⟨"cv5.pdf", "E"⟩,
       batch_entry_value B_one_failing "Job" ⟨"cv3.pdf", "FAILME"⟩] h12
    simp only [List.insertionSort]
    rw [o5, o4, o3, o2, o1]

/-! ### C6: the ranking is sorted descending and stable -/

instance : IsTotal BatchEntry scoreDescOrder :=
  ⟨fun a b => le_total b.score a.score⟩

instance : IsTrans BatchEntry scoreDescOrder :=
  ⟨fun _ _ _ h1 h2 => le_trans h2 h1⟩

theorem filter_orderedInsert (c : ℚ) (x : BatchEntry) (l : List BatchEntry) :
    (l.orderedInsert scoreDescOrder x).filter (fun e => decide (e.score = c)) =
      if x.score = c then
        x :: l.filter (fun e => decide (e.score = c))
      else l.filter (fun e => decide (e.score = c)) := by
  induction l with
  | nil =>
    by_cases h : x.score = c <;> simp [List.orderedInsert, h]
  | cons b bs ih =>
    by_cases hr : scoreDescOrder x b
    · rw [List.orderedInsert_of_le _ _ hr]
      by_cases hx : x.score = c <;> simp [List.filter_cons, hx]
    · simp only [List.orderedInsert, if_neg hr]
      by_cases hx : x.score = c
      · have hbc : ¬ (b.score = c) := by
          intro hb
          exact hr (le_of_eq (by rw [hb, hx]))
        simp [List.filter_cons, hx, hbc, ih]
      · by_cases hb : b.score = c <;> simp [List.filter_cons, hx, hb, ih]

theorem filter_insertionSort (c : ℚ) (l : List BatchEntry) :
    (l.insertionSort scoreDescOrder).filter (fun e => decide (e.score = c)) =
      l.filter (fun e => decide (e.score = c)) := by
  induction l with
  | nil => rfl
  | cons b bs ih =>
    simp only [List.insertionSort]
    rw [filter_orderedInsert]
    by_cases hb : b.score = c <;> simp [List.filter_cons, hb, ih]

/-- C6: `batch_score_cvs` returns the scored entries sorted by total score
descending, and the sort is stable: for every score value, the entries
carrying it appear in their original input (upload) order; the output is a
permutation of the unsorted collection. -/
theorem batch_ranking_sorted_and_stable (B : LLMBoundary) (jd : String)
    (l : List CVData) :
    batch_score_cvs B jd l =
      .ok ((batch_results_list B jd l).insertionSort scoreDescOrder) ∧
    ((batch_results_list B jd l).insertionSort scoreDescOrder).Pairwise
      (fun a b => b.score ≤ a.score) ∧
    (∀ c : ℚ,
      ((batch_results_list B jd l).insertionSort scoreDescOrder).filter
          (fun e => decide (e.score = c)) =
        (batch_results_list B jd l).filter (fun e => decide (e.score = c))) ∧
    ((batch_results_list B jd l).insertionSort scoreDescOrder).Perm
      (batch_results_list B jd l) :=
  ⟨batch_ok B jd l,
   List.sorted_insertionSort scoreDescOrder (batch_results_list B jd l),
   fun c => filter_insertionSort c (batch_results_list B jd l),
   List.perm_insertionSort scoreDescOrder (batch_results_list B jd l)⟩

/-! ### C7: anonymity of the scoring prompt and candidate numbering -/

theorem enumFrom_map_succ (f : ℕ → ℕ) :
    ∀ (s : ℕ) (l : List CVData),
      (List.enumFrom s l).map (fun p => p.1 + 1) = List.range' (s + 1) l.length
  | _, [] => rfl
  | s, _ :: as => by
    simp only [List.enumFrom, List.map_cons, List.length_cons, List.range'_succ]
    rw [enumFrom_map_succ f (s + 1) as]

/-- C7: the prompt sent to the LLM is a function of the job description, the
CV text and the candidate number only — two scoring calls differing only in
file name produce identical prompts; the prompt names its subject with the
"CANDIDATE #n" marker; and candidate numbers are assigned 1..N in upload
order. -/
theorem prompt_anonymous_and_numbered (jd raw_text : String) (n : ℕ)
    (f1 f2 : String) :
    score_cv_prompt jd ⟨f1, raw_text, n⟩ = score_cv_prompt jd ⟨f2, raw_text, n⟩ ∧
    (∃ pre post, SCORING_PROMPT_filled jd raw_text n =
      pre ++ ("CANDIDATE #" ++ toString n) ++ post) ∧
    (∀ l : List CVData, (parsed_cv_list l).map (fun c => c.candidate_number) =
      List.range' 1 l.length) := by
  refine ⟨rfl, ?_, ?_⟩
  · refine ⟨SCORING_PROMPT_pre ++ jd ++ "\n\n",
      SCORING_PROMPT_mid2 ++ raw_text ++ SCORING_PROMPT_mid3 ++ toString n ++
        SCORING_PROMPT_mid4 ++ toString n ++ SCORING_PROMPT_end, ?_⟩
    have hm : SCORING_PROMPT_mid1 = "\n\n" ++ "CANDIDATE #" := by decide
    rw [SCORING_PROMPT_filled, hm]
    simp only [String.append_assoc]
  · intro l
    show (l.enum.map fun p => (⟨p.2.file_name, p.2.text, p.1 + 1⟩ : ParsedCV)).map
        (fun c => c.candidate_number) = List.range' 1 l.length
    rw [List.map_map]
    exact enumFrom_map_succ id 0 l

/-! ### C8: the worker pool size -/

/-- C8: the batch worker pool has size min(5, n): never more than 5, never
more than the number of candidates; a batch of 7 gets 5 workers, a batch of
3 gets exactly 3. -/
theorem worker_pool_size_min_five (n : ℕ) :
    max_workers n = min 5 n ∧ max_workers n ≤ 5 ∧ max_workers n ≤ n ∧
    max_workers 7 = 5 ∧ max_workers 3 = 3 :=
  ⟨rfl, Nat.min_le_left 5 n, Nat.min_le_right 5 n, rfl, rfl⟩

/-! ### C9: the fallback name extractor -/

/-- The name heuristic exactly as the claim states it: the 5-line window
ranges over the first 5 NON-empty lines (and the 10-line fallback window
over the first 10 non-empty lines).  The source ranges over raw lines
instead; see the counterexample. -/
def extract_candidate_name_claim (text : String) : String :=
  let lines := ((splitOnChar '\n' (trimChars text.data)).map trimChars).filter
    (fun l => l ≠ [])
  match (lines.take 5).findSome? (fun line =>
      if upperChars line ∈ NAME_HEADERS then none
      else if looksLikeName line then some line else none) with
  | some line => String.mk line
  | none =>
    match (lines.take 10).findSome? (fun line =>
        if line.length < 50 then some line else none) with
    | some line => String.mk line
    | none => "Unknown Candidate"

/-- The name heuristic as amended: the windows are windows of raw lines of
the stripped text — blank lines and stoplisted lines are skipped but still
occupy their slot in the 5-line (resp. 10-line) window. -/
def extract_candidate_name_amended (text : String) : String :=
  let lines := splitOnChar '\n' (trimChars text.data)
  match (lines.take 5).findSome? (fun l =>
      let line := trimChars l
      if line ≠ [] ∧ upperChars line ∉ NAME_HEADERS ∧ looksLikeName line then
        some line
      else none) with
  | some line => String.mk line
  | none =>
    match (lines.take 10).findSome? (fun l =>
        let line := trimChars l
        if line ≠ [] ∧ line.length < 50 then some line else none) with
    | some line => String.mk line
    | none => "Unknown Candidate"

theorem findNameLoop_eq (ls : List (List Char)) :
    findNameLoop ls = ls.findSome? (fun l =>
      let line := trimChars l
      if line ≠ [] ∧ upperChars line ∉ NAME_HEADERS ∧ looksLikeName line then
        some line
      else none) := by
  induction ls with
  | nil => rfl
  | cons a as ih =>
    rw [findNameLoop, List.findSome?_cons]
    by_cases h1 : trimChars a = [] ∨ upperChars (trimChars a) ∈ NAME_HEADERS
    · have hc : ¬ (trimChars a ≠ [] ∧ upperChars (trimChars a) ∉ NAME_HEADERS ∧
          looksLikeName (trimChars a)) := by
        tauto
      rw [if_pos h1, ih]
      simp only [if_neg hc]
    · by_cases h2 : looksLikeName (trimChars a)
      · have hc : trimChars a ≠ [] ∧ upperChars (trimChars a) ∉ NAME_HEADERS ∧
            looksLikeName (trimChars a) := by
          tauto
        rw [if_neg h1, if_pos h2]
        simp only [if_pos hc]
      · have hc : ¬ (trimChars a ≠ [] ∧ upperChars (trimChars a) ∉ NAME_HEADERS ∧
            looksLikeName (trimChars a)) := by
          tauto
        rw [if_neg h1, if_neg h2, ih]
        simp only [if_neg hc]

theorem findFallbackLoop_eq (ls : List (List Char)) :
    findFallbackLoop ls = ls.findSome? (fun l =>
      let line := trimChars l
      if line ≠ [] ∧ line.length < 50 then some line else none) := by
  induction ls with
  | nil => rfl
  | cons a as ih =>
    rw [findFallbackLoop, List.findSome?_cons]
    by_cases h1 : trimChars a ≠ [] ∧ (trimChars a).length < 50
    · rw [if_pos h1]
      simp only [if_pos h1]
    · rw [if_neg h1, ih]
      simp only [if_neg h1]

/-- C9 (amended): the extractor scans the first 5 raw lines of the stripped
text, skipping blank and stoplisted lines within that window (they still
consume their slot), accepting the first stripped line of 2-4 words all
alphabetic after removing periods and commas; failing that, it returns the
first of the first 10 raw lines whose stripped form is non-empty and shorter
than 50 characters; otherwise "Unknown Candidate". -/
theorem extract_name_window_behaviour (text : String) :
    extract_candidate_name text = extract_candidate_name_amended text := by
  simp only [extract_candidate_name, extract_candidate_name_amended,
    findNameLoop_eq, findFallbackLoop_eq]

/-- C9 counterexample: on "CV\n\n\n\n\nJohn Smith" the claimed behaviour
(scan the first 5 non-empty lines) would return "John Smith", but the source
scans the first 5 raw lines — the blank lines exhaust the window and the
fallback returns the stoplisted header "CV". -/
theorem extract_name_counts_raw_lines :
    extract_candidate_name "CV\n\n\n\n\nJohn Smith" = "CV" ∧
    extract_candidate_name_claim "CV\n\n\n\n\nJohn Smith" = "John Smith" ∧
    ("CV" : String) ≠ "John Smith" :=
  ⟨by decide, by decide, by decide⟩

end CVScreener

